import Mathlib

/-!
Shallow embedding of the pt_cli client (c3g/project_tracking_cli), covering
pt_cli/connect.py (OAuthNego: maybe_json, connect, get, post, session
initialisation, the fatal Error classes) and pt_cli/tools.py (the fatal error
classes, unroll, ReadsetFile.jsonify_input).

External library behaviour is passed in as data: the outcome of json.loads is
an `Option Json` argument (none on json.decoder.JSONDecodeError), the text
produced by BeautifulSoup(data).get_text() is a `String` argument, the HTTP
exchanges of a get/post call are `HttpResponse` arguments, and pickle.load is
a `PickleLoad` argument.  The re.search calls of OAuthNego.connect are
modelled exactly (leftmost match position, non-greedy capture, dot does not
match a newline).
-/

namespace PtCli

/-- A decoded JSON value, as returned by json.loads.  Objects are association
lists (Python dicts have unique keys; json.loads keeps one binding per key). -/
inductive Json where
  | null
  | bool (b : Bool)
  | num (n : Int)
  | str (s : String)
  | arr (xs : List Json)
  | obj (kvs : List (String × Json))

/-- Python truthiness bool(v) of a decoded JSON value. -/
def Json.truthy : Json → Bool
  | .null => false
  | .bool b => b
  | .num n => n != 0
  | .str s => s != ""
  | .arr xs => !xs.isEmpty
  | .obj kvs => !kvs.isEmpty

/-- dict.get(k): the binding of k, or None when the key is absent. -/
def dictGet (k : String) : List (String × Json) → Json
  | [] => .null
  | (k2, v) :: rest => if k2 = k then v else dictGet k rest

/-- dict.pop(k): the dict with the binding of k removed. -/
def dictPop (k : String) (kvs : List (String × Json)) : List (String × Json) :=
  kvs.filter (fun p => p.1 != k)

/-- str(v) for a decoded JSON value, as used in the f-strings of the Error
classes and of the warning messages.  The arr and obj renderings
are schematic; the client only ever formats strings and lists of strings. -/
def pyStr : Json → String
  | .null => "None"
  | .bool b => if b then "True" else "False"
  | .num n => toString n
  | .str s => s
  | .arr _ => "<list>"
  | .obj _ => "<dict>"

/-- connect.Error.__init__ args formatting: a list message is newline-joined
after "ClassName: \n", any other message is rendered after "ClassName: ". -/
def errorArgs (clsName : String) : Json → String
  | .arr xs => clsName ++ ": \n" ++ String.intercalate "\n" (xs.map pyStr)
  | v => clsName ++ ": " ++ pyStr v

/-- sys.exit(e) on an exception object: the message is printed and the
process exit status is 1 (non-zero). -/
structure SysExit where
  message : String
  code : Nat
deriving DecidableEq

/-- connect.Error.__init__ (also inherited by BadRequestError): formats the
message into self.args and immediately calls sys.exit(self), so construction
never returns an exception object that a raise site could deliver. -/
def connectErrorInit (clsName : String) (msg : Json) : Except SysExit Unit :=
  .error ⟨errorArgs clsName msg, 1⟩

/-- tools.BadArgumentError.__init__: default message, then sys.exit(self). -/
def badArgumentErrorInit (message : Option String) : Except SysExit Unit :=
  .error ⟨"BadArgumentError: " ++
    message.getD "Either use --input-json OR general option --data/--data-file from pt_cli", 1⟩

/-- tools.EmptyGetError.__init__: default message, then sys.exit(self). -/
def emptyGetErrorInit (message : Option String) : Except SysExit Unit :=
  .error ⟨"EmptyGetError: " ++
    message.getD "Database returned nothing, it\x27s most likely unreachable", 1⟩

/-- tools.JSONDecodeError.__init__: context message, then sys.exit(self). -/
def jsonDecodeErrorInit (context origMsg : String) : Except SysExit Unit :=
  .error ⟨"JSONDecodeError: Failed to decode JSON " ++ context ++ ": " ++ origMsg ++
    "\n                 This is most likely not a JSON file or it\x27s malformed.", 1⟩

/-- Python str.startswith, on the underlying character lists. -/
def startswith (p s : String) : Bool := p.data.isPrefixOf s.data

/-- The value OAuthNego.maybe_json returns: the decoded JSON value on the
JSON path, or the raw body string on the markup path. -/
inductive MJRet where
  | json (v : Json)
  | raw (data : String)

/-- The observable outcome of one maybe_json call: the returned value or the
SystemExit raised by a BadRequestError construction, plus what was sent to
logger.warning, to the warning.log file, and to stdout. -/
structure MJOutcome where
  ret : Except SysExit MJRet
  loggerWarning : Option String
  warningLogFile : Option String
  stdOutWrite : Option String

/-- OAuthNego.maybe_json (connect.py lines 112-140).  decoded is the result
of json.loads(data) (none when that raises JSONDecodeError) and strippedText
is BeautifulSoup(data, features="html5lib").get_text(); data is always a str
here because it comes from requests r.text. -/
def maybe_json (quiet : Bool) (decoded : Option Json) (strippedText data : String) :
    MJOutcome :=
  match decoded with
  | some loads =>
    match loads with
    | .obj kvs =>
      if (dictGet "DB_ACTION_ERROR" kvs).truthy then
        ⟨.error ⟨errorArgs "BadRequestError" (dictGet "DB_ACTION_ERROR" kvs), 1⟩,
          none, none, none⟩
      else if (dictGet "DB_ACTION_WARNING" kvs).truthy then
        let w := dictGet "DB_ACTION_WARNING" kvs
        let joined := match w with
          | .arr xs => String.intercalate "\n" (xs.map pyStr)
          | v => pyStr v
        if quiet then
          ⟨.ok (.json (.obj (dictPop "DB_ACTION_WARNING" kvs))),
            some "WARNINGS written to warning.log", some ("\n" ++ joined), none⟩
        else
          ⟨.ok (.json (.obj (dictPop "DB_ACTION_WARNING" kvs))),
            some ("\n" ++ joined), none, none⟩
      else
        ⟨.ok (.json loads), none, none, none⟩
    | v => ⟨.ok (.json v), none, none, none⟩
  | none =>
    if startswith "----------" strippedText then
      ⟨.ok (.raw data), none, none, some strippedText⟩
    else if startswith "Welcome" strippedText then
      ⟨.ok (.raw data), none, none, some strippedText⟩
    else
      ⟨.error ⟨errorArgs "BadRequestError" (.str strippedText), 1⟩, none, none, none⟩

/-- Non-greedy capture for the pattern fragment "(.*?)&": the characters up
to the first ampersand; no match (none) when the end of input or a newline,
which the dot does not match, comes first. -/
def captureToAmp : List Char → Option (List Char)
  | [] => none
  | c :: rest =>
    if c = '&' then some []
    else if c = '\n' then none
    else (captureToAmp rest).map (fun l => c :: l)

/-- Non-greedy capture for the pattern fragment ".*?\x3f" of the post-url
search: the characters up to the first question mark, on one line. -/
def captureToQmark : List Char → Option (List Char)
  | [] => none
  | c :: rest =>
    if c = '?' then some []
    else if c = '\n' then none
    else (captureToQmark rest).map (fun l => c :: l)

/-- re.search for a pattern made of a literal key followed by a non-greedy
capture: the scan tries every start position from the left; at the first
position where the literal matches and the capture can terminate, the
capture is returned. -/
def reSearch (key : List Char) (cap : List Char → Option (List Char)) :
    List Char → Option (List Char)
  | [] => none
  | s@(_ :: rest) =>
    if key.isPrefixOf s then
      match cap (s.drop key.length) with
      | some r => some r
      | none => reSearch key cap rest
    else reSearch key cap rest

/-- Python substring containment (needle in hay) on character lists. -/
def containsSub (needle : List Char) : List Char → Bool
  | [] => needle.isEmpty
  | s@(_ :: rest) => needle.isPrefixOf s || containsSub needle rest

/-- Python substring containment on strings. -/
def strIn (needle hay : String) : Bool := containsSub needle.data hay.data

/-- The literal part of the post-url pattern "(https://.*?)\x3f". -/
def httpsKey : List Char := "https://".data

/-- The login-challenge fields OAuthNego.connect extracts (spec: the Login
Challenge record). -/
structure Challenge where
  session_code : String
  execution : String
  client_id : String
  tab_id : String
  post_url : String
deriving DecidableEq

/-- The extraction part of OAuthNego.connect (connect.py lines 103-107): one
re.search per PARAMS key with pattern key ++ "=(.*?)&", then the post url
with pattern "(https://.*?)\x3f" whose group keeps the https:// part.  When
any search returns None, Python raises AttributeError from None.groups();
that is the none case here. -/
def extract_challenge (content : String) : Option Challenge := do
  let cs := content.data
  let sc ← reSearch "session_code=".data captureToAmp cs
  let ex ← reSearch "execution=".data captureToAmp cs
  let ci ← reSearch "client_id=".data captureToAmp cs
  let ti ← reSearch "tab_id=".data captureToAmp cs
  let pu ← (reSearch httpsKey captureToQmark cs).map (fun c => httpsKey ++ c)
  pure ⟨⟨sc⟩, ⟨ex⟩, ⟨ci⟩, ⟨ti⟩, ⟨pu⟩⟩

/-- The uncaught Python exception a route call can end with. -/
inductive PyError where
  | attributeError
deriving DecidableEq

/-- OAuthNego.connect on the body of the welcome-page GET it performs:
either the extracted challenge (which it then posts with the credentials) or
the AttributeError that None.groups() raises on a malformed page. -/
def connect (challengePageBody : String) : Except PyError Challenge :=
  match extract_challenge challengePageBody with
  | some ch => .ok ch
  | none => .error .attributeError

/-- One HTTP exchange as seen by the route client: the effective response
url (after transport-level redirects) and the body text. -/
structure HttpResponse where
  url : String
  text : String
deriving DecidableEq

/-- Observable trace of one OAuthNego.get or OAuthNego.post call:
how many times connect() was invoked, how many times the original request
url was sent, and the final body (or the uncaught error from connect). -/
structure RouteOutcome where
  authAttempts : Nat
  originalSends : Nat
  result : Except PyError String

/-- OAuthNego.get (connect.py lines 142-152).  r1 answers the first send of
the request; when its url contains REDIRECT the client runs connect() -
challengePageBody being the body connect() fetches from the welcome page -
and resends the request once, answered by r2.  The final body goes to
maybe_json. -/
def routeGet (r1 : HttpResponse) (challengePageBody : String) (r2 : HttpResponse) :
    RouteOutcome :=
  if strIn "redirect_uri" r1.url then
    match connect challengePageBody with
    | .ok _ => ⟨1, 2, .ok r2.text⟩
    | .error e => ⟨1, 1, .error e⟩
  else ⟨0, 1, .ok r1.text⟩

/-- OAuthNego.post (connect.py lines 154-164): same control flow as get,
with the posted data resent unchanged on the single retry. -/
def routePost (postData : String) (r1 : HttpResponse) (challengePageBody : String)
    (r2 : HttpResponse) : RouteOutcome :=
  if strIn "redirect_uri" r1.url then
    match connect challengePageBody with
    | .ok _ => ⟨1, 2, .ok r2.text⟩
    | .error e => ⟨1, 1, .error e⟩
  else ⟨0, 1, .ok r1.text⟩

/-- The outcome of pickle.load on the session file, as OAuthNego.__init__
observes it: a session value, or one of the exceptions the load can raise -
FileNotFoundError from open on a missing path, EOFError on an empty or
truncated pickle, UnpicklingError on otherwise corrupt content. -/
inductive PickleLoad (σ : Type) where
  | ok (s : σ)
  | eofError
  | fileNotFound
  | unpicklingError

/-- Session initialisation in OAuthNego.__init__ (connect.py lines 60-66):
load_session inside a try block whose except clause catches exactly
(EOFError, FileNotFoundError) and falls back to a fresh requests Session;
any other exception propagates and aborts construction. -/
def initSession {σ : Type} (loadResult : PickleLoad σ) (freshSession : σ) :
    Except (PickleLoad σ) σ :=
  match loadResult with
  | .ok s => .ok s
  | .eofError => .ok freshSession
  | .fileNotFound => .ok freshSession
  | .unpicklingError => .error .unpicklingError

/-- Python str.split(sep) for a one-character separator: splits at every
occurrence and keeps empty pieces, so the result is always non-empty. -/
def pySplit (sep : Char) : List Char → List (List Char)
  | [] => [[]]
  | c :: rest =>
    if c = sep then [] :: pySplit sep rest
    else
      match pySplit sep rest with
      | [] => [[c]]
      | h :: t => (c :: h) :: t

/-- Value of a digit string (helper for the int() model). -/
def digitsVal (ds : List Char) : Nat :=
  ds.foldl (fun a c => a * 10 + (c.toNat - 48)) 0

/-- Python int(s) on the strings unroll feeds it: an optional leading minus
sign then decimal digits; none models the ValueError on anything else. -/
def pyInt? : List Char → Option Int
  | [] => none
  | c :: rest =>
    if c = '-' then
      if !rest.isEmpty && rest.all Char.isDigit then some (-(digitsVal rest : Int)) else none
    else
      if (c :: rest).all Char.isDigit then some ((digitsVal (c :: rest) : Int)) else none

/-- Python range(a, b + 1) collected into a list of ints. -/
def pyRange (a b : Int) : List Int :=
  (List.range (b - a + 1).toNat).map (fun i => a + i)

/-- One element of tools.unroll: a chunk between commas.  A chunk holding a
dash is split on dashes; int() of the first and last pieces bound an
inclusive min..max range; otherwise int() of the chunk itself. -/
def unrollElem (e : List Char) : Option (List Int) :=
  if '-' ∈ e then
    let parts := pySplit '-' e
    match pyInt? (parts.headD []), pyInt? (parts.getLastD []) with
    | some first, some last => some (pyRange (min first last) (max first last))
    | _, _ => none
  else (pyInt? e).map (fun n => [n])

/-- The accumulation loop of tools.unroll over the non-empty chunks. -/
def unrollChunks : List (List Char) → Option (List Int)
  | [] => some []
  | e :: rest => do
    let xs ← unrollElem e
    let ys ← unrollChunks rest
    pure (xs ++ ys)

/-- tools.unroll (tools.py lines 61-78): "1,3-7,9" to [1,3,4,5,6,7,9].
none models the uncaught ValueError that int() raises on a malformed
piece. -/
def unroll (s : String) : Option (List Int) :=
  unrollChunks ((pySplit ',' s.data).filter (fun e => !e.isEmpty))

/-- The ReadsetFile argparse fields that jsonify_input reads.  An argument
declared with nargs specifying one-or-more is either absent (none) or a list
of strings. -/
structure ReadsetArgs where
  endpoint : Option String
  nucleic_acid_type : Option String
  specimen_name : Option (List String)
  specimen_id : Option (List String)
  sample_name : Option (List String)
  sample_id : Option (List String)
  readset_name : Option (List String)
  readset_id : Option (List String)

/-- Python truthiness of an optional argument list: None and the empty list
are falsy. -/
def optListTruthy : Option (List String) → Bool
  | none => false
  | some l => !l.isEmpty

/-- A possibly-absent string argument as a JSON value. -/
def optStrJson : Option String → Json
  | none => .null
  | some s => .str s

/-- The value stored for an id argument: a single argument string is
unrolled into a list of ints, several argument strings are kept as the list
of strings. -/
def idFilterValue (ids : List String) : Option Json :=
  match ids with
  | [x] => (unroll x).map (fun ns => Json.arr (ns.map Json.num))
  | _ => some (.arr (ids.map .str))

/-- ReadsetFile.jsonify_input (tools.py lines 241-274): builds the filter
JSON object, key by key in source order.  none models the uncaught
ValueError from int() inside unroll. -/
def jsonify_input (a : ReadsetArgs) : Option (List (String × Json)) := do
  let j0 := [("location_endpoint", optStrJson a.endpoint),
             ("experiment_nucleic_acid_type", optStrJson a.nucleic_acid_type)]
  let j1 := if optListTruthy a.specimen_name then
      j0 ++ [("specimen_name", Json.arr ((a.specimen_name.getD []).map .str))]
    else j0
  let j2 ← if optListTruthy a.specimen_id then do
      let v ← idFilterValue (a.specimen_id.getD [])
      pure (j1 ++ [("specimen_id", v)])
    else pure j1
  let j3 := if optListTruthy a.sample_name then
      j2 ++ [("sample_name", Json.arr ((a.sample_name.getD []).map .str))]
    else j2
  let j4 ← if optListTruthy a.sample_id then do
      let v ← idFilterValue (a.sample_id.getD [])
      pure (j3 ++ [("sample_id", v)])
    else pure j3
  let j5 := if optListTruthy a.readset_name then
      j4 ++ [("readset_name", Json.arr ((a.readset_name.getD []).map .str))]
    else j4
  let j6 ← if optListTruthy a.readset_id then do
      let v ← idFilterValue (a.readset_id.getD [])
      pure (j5 ++ [("readset_id", v)])
    else pure j5
  pure j6

/-- Description of one well-formed piece of an unroll input string: a plain
number or a dash range, each given by its digit characters. -/
inductive IdItem where
  | single (ds : List Char)
  | range (lo hi : List Char)

/-- The characters an IdItem contributes to the comma-separated string. -/
def IdItem.render : IdItem → List Char
  | .single ds => ds
  | .range lo hi => lo ++ '-' :: hi

/-- Well-formedness of an IdItem: every piece is a non-empty digit string. -/
def IdItem.wfb : IdItem → Bool
  | .single ds => !ds.isEmpty && ds.all Char.isDigit
  | .range lo hi => !lo.isEmpty && lo.all Char.isDigit && (!hi.isEmpty && hi.all Char.isDigit)

/-- The integers an IdItem stands for, ranges expanded inclusively. -/
def IdItem.expand : IdItem → List Int
  | .single ds => [(digitsVal ds : Int)]
  | .range lo hi =>
    pyRange (min (digitsVal lo : Int) (digitsVal hi : Int))
            (max (digitsVal lo : Int) (digitsVal hi : Int))

/-- The comma-separated string described by a list of IdItems. -/
def renderItems : List IdItem → List Char
  | [] => []
  | [i] => i.render
  | i :: rest => i.render ++ ',' :: renderItems rest

/-- The canonical well-formed challenge body of the spec:
session_code=X&execution=Y&client_id=Z&tab_id=W followed by filler and an
https url terminated by a question mark. -/
def challengeBody (X Y Z W mid hp rest : String) : String :=
  "session_code=" ++ (X ++ ("&" ++ ("execution=" ++ (Y ++ ("&" ++ ("client_id=" ++
    (Z ++ ("&" ++ ("tab_id=" ++ (W ++ ("&" ++ (mid ++ ("https://" ++
    (hp ++ ("?" ++ rest)))))))))))))))

/-- conflict key seg: the literal key provably mismatches seg at some index
inside seg, whatever follows seg. -/
def conflict : List Char → List Char → Bool
  | [], _ => false
  | _ :: _, [] => false
  | k :: ks, c :: cs => if k = c then conflict ks cs else true

/-- allConflict key lit: the key conflicts inside lit at every start
position of lit, so no match of the key can begin inside lit. -/
def allConflict (key : List Char) : List Char → Bool
  | [] => true
  | s@(_ :: rest) => conflict key s && allConflict key rest

/-! Lemmas about the leftmost-match search. -/

theorem isPrefixOf_append_self : ∀ (l r : List Char), l.isPrefixOf (l ++ r) = true := by
  intro l r
  induction l with
  | nil => simp [List.isPrefixOf]
  | cons c cs ih => simp [List.isPrefixOf, ih]

theorem not_isPrefixOf_of_conflict :
    ∀ (key seg r : List Char), conflict key seg = true →
      key.isPrefixOf (seg ++ r) = false := by
  intro key
  induction key with
  | nil => intro seg r h; simp [conflict] at h
  | cons k ks ih =>
    intro seg r h
    cases seg with
    | nil => simp [conflict] at h
    | cons c cs =>
      by_cases hkc : k = c
      · subst hkc
        have h2 : conflict ks cs = true := by simpa [conflict] using h
        simp [List.isPrefixOf, ih cs r h2]
      · simp [List.isPrefixOf, hkc]

theorem reSearch_step_skip (key : List Char) (cap : List Char → Option (List Char))
    (c : Char) (l : List Char) (h : key.isPrefixOf (c :: l) = false) :
    reSearch key cap (c :: l) = reSearch key cap l := by
  conv_lhs => rw [reSearch]
  simp [h]

theorem reSearch_skip_one (key : List Char) (cap : List Char → Option (List Char))
    (c : Char) (r : List Char) (h : conflict key [c] = true) :
    reSearch key cap (c :: r) = reSearch key cap r := by
  have hpre := not_isPrefixOf_of_conflict key [c] r h
  simp only [List.singleton_append] at hpre
  exact reSearch_step_skip key cap c r hpre

theorem reSearch_skip_conflict (key : List Char) (cap : List Char → Option (List Char)) :
    ∀ (lit r : List Char), allConflict key lit = true →
      reSearch key cap (lit ++ r) = reSearch key cap r := by
  intro lit
  induction lit with
  | nil => intro r _; rfl
  | cons c cs ih =>
    intro r h
    have h1 : conflict key (c :: cs) = true := by
      simp [allConflict, Bool.and_eq_true] at h
      exact h.1
    have h2 : allConflict key cs = true := by
      simp [allConflict, Bool.and_eq_true] at h
      exact h.2
    have hpre := not_isPrefixOf_of_conflict key (c :: cs) r h1
    simp only [List.cons_append] at hpre ⊢
    rw [reSearch_step_skip key cap c (cs ++ r) hpre]
    exact ih r h2

theorem not_isPrefixOf_alnum_amp :
    ∀ (seg key r : List Char), (∃ b ∈ key, b.isAlphanum = false) → '&' ∉ key →
      seg.all Char.isAlphanum = true →
      key.isPrefixOf (seg ++ '&' :: r) = false := by
  intro seg
  induction seg with
  | nil =>
    intro key r hbad hamp _
    cases key with
    | nil =>
      obtain ⟨b, hb, _⟩ := hbad
      exact absurd hb (List.not_mem_nil b)
    | cons k ks =>
      have hk : ¬(k = '&') := fun he => hamp (he ▸ List.mem_cons_self k ks)
      simp [List.isPrefixOf, hk]
  | cons c cs ih =>
    intro key r hbad hamp hseg
    have hc : c.isAlphanum = true := by
      simp [List.all_cons, Bool.and_eq_true] at hseg
      exact hseg.1
    have hcs : cs.all Char.isAlphanum = true := by
      simp [List.all_cons, Bool.and_eq_true] at hseg
      exact List.all_eq_true.mpr (fun x hx => hseg.2 x hx)
    cases key with
    | nil =>
      obtain ⟨b, hb, _⟩ := hbad
      exact absurd hb (List.not_mem_nil b)
    | cons k ks =>
      by_cases hkc : k = c
      · subst hkc
        obtain ⟨b, hb, hbA⟩ := hbad
        have hbks : b ∈ ks := by
          cases List.mem_cons.mp hb with
          | inl h0 => rw [h0] at hbA; rw [hc] at hbA; cases hbA
          | inr h0 => exact h0
        have hampks : '&' ∉ ks := fun h0 => hamp (List.mem_cons_of_mem _ h0)
        simp [List.isPrefixOf, ih ks r ⟨b, hbks, hbA⟩ hampks hcs]
      · simp [List.isPrefixOf, hkc]

theorem reSearch_skip_alnum (key : List Char) (cap : List Char → Option (List Char))
    (hbad : ∃ b ∈ key, b.isAlphanum = false) (hamp : '&' ∉ key) :
    ∀ (seg r : List Char), seg.all Char.isAlphanum = true →
      reSearch key cap (seg ++ '&' :: r) = reSearch key cap ('&' :: r) := by
  intro seg
  induction seg with
  | nil => intro r _; rfl
  | cons c cs ih =>
    intro r hseg
    have hcs : cs.all Char.isAlphanum = true := by
      simp [List.all_cons, Bool.and_eq_true] at hseg
      exact List.all_eq_true.mpr (fun x hx => hseg.2 x hx)
    have hpre := not_isPrefixOf_alnum_amp (c :: cs) key r hbad hamp hseg
    simp only [List.cons_append] at hpre ⊢
    rw [reSearch_step_skip key cap c (cs ++ '&' :: r) hpre]
    exact ih r hcs

theorem not_isPrefixOf_https_span :
    ∀ (seg r : List Char), ':' ∉ seg → seg ≠ [] →
      httpsKey.isPrefixOf (seg ++ 'h' :: 't' :: 't' :: 'p' :: 's' :: ':' :: r) = false := by
  have hk : httpsKey = ['h', 't', 't', 'p', 's', ':', '/', '/'] := rfl
  intro seg r hmem hne
  rw [hk]
  rcases seg with _ | ⟨a, _ | ⟨b, _ | ⟨c, _ | ⟨d, _ | ⟨e, _ | ⟨f, tail⟩⟩⟩⟩⟩⟩
  · exact absurd rfl hne
  · simp [List.isPrefixOf, show (('t' : Char) == 'h') = false from rfl]
  · simp [List.isPrefixOf, show (('t' : Char) == 'h') = false from rfl]
  · simp [List.isPrefixOf, show (('p' : Char) == 'h') = false from rfl]
  · simp [List.isPrefixOf, show (('s' : Char) == 'h') = false from rfl]
  · simp [List.isPrefixOf, show ((':' : Char) == 'h') = false from rfl]
  · have hf : ¬((':' : Char) = f) := by
      intro he
      exact hmem (by
        rw [he]
        exact List.mem_cons_of_mem _ (List.mem_cons_of_mem _ (List.mem_cons_of_mem _
          (List.mem_cons_of_mem _ (List.mem_cons_of_mem _ (List.mem_cons_self f tail))))))
    simp [List.isPrefixOf, hf]

theorem reSearch_skip_mid (cap : List Char → Option (List Char)) :
    ∀ (mid r : List Char), ':' ∉ mid →
      reSearch httpsKey cap (mid ++ 'h' :: 't' :: 't' :: 'p' :: 's' :: ':' :: r)
        = reSearch httpsKey cap ('h' :: 't' :: 't' :: 'p' :: 's' :: ':' :: r) := by
  intro mid
  induction mid with
  | nil => intro r _; rfl
  | cons c cs ih =>
    intro r h
    have hcs : ':' ∉ cs := fun hx => h (List.mem_cons_of_mem _ hx)
    have hpre := not_isPrefixOf_https_span (c :: cs) r h (by simp)
    simp only [List.cons_append] at hpre ⊢
    rw [reSearch_step_skip httpsKey cap c _ hpre]
    exact ih r hcs

theorem captureToAmp_append :
    ∀ (seg r : List Char), seg.all (fun c => c != '&' && c != '\n') = true →
      captureToAmp (seg ++ '&' :: r) = some seg := by
  intro seg
  induction seg with
  | nil => intro r _; simp [captureToAmp]
  | cons c cs ih =>
    intro r h
    simp only [List.all_cons, Bool.and_eq_true, bne_iff_ne, ne_eq] at h
    obtain ⟨⟨h1, h2⟩, h3⟩ := h
    simp [captureToAmp, h1, h2, ih r h3]

theorem captureToQmark_append :
    ∀ (seg r : List Char), seg.all (fun c => c != '?' && c != '\n') = true →
      captureToQmark (seg ++ '?' :: r) = some seg := by
  intro seg
  induction seg with
  | nil => intro r _; simp [captureToQmark]
  | cons c cs ih =>
    intro r h
    simp only [List.all_cons, Bool.and_eq_true, bne_iff_ne, ne_eq] at h
    obtain ⟨⟨h1, h2⟩, h3⟩ := h
    simp [captureToQmark, h1, h2, ih r h3]

theorem reSearch_match (key : List Char) (cap : List Char → Option (List Char))
    (r res : List Char) (hne : key ≠ []) (hcap : cap r = some res) :
    reSearch key cap (key ++ r) = some res := by
  cases key with
  | nil => exact absurd rfl hne
  | cons k ks =>
    have hpre : (k :: ks).isPrefixOf ((k :: ks) ++ r) = true := isPrefixOf_append_self _ _
    conv_lhs => rw [List.cons_append, reSearch]
    rw [← List.cons_append, hpre]
    simp only [if_true]
    rw [List.drop_left, hcap]

theorem reSearch_eq_none_of_not_contains (key : List Char)
    (cap : List Char → Option (List Char)) :
    ∀ l, containsSub key l = false → reSearch key cap l = none := by
  intro l
  induction l with
  | nil => intro _; rfl
  | cons c cs ih =>
    intro h
    have h0 : key.isPrefixOf (c :: cs) = false ∧ containsSub key cs = false := by
      have := h
      simp only [containsSub, Bool.or_eq_false_iff] at this
      exact this
    rw [reSearch_step_skip key cap c cs h0.1]
    exact ih h0.2

theorem all_alnum_amp_chars : ∀ (seg : List Char), seg.all Char.isAlphanum = true →
    seg.all (fun c => c != '&' && c != '\n') = true := by
  intro seg h
  rw [List.all_eq_true] at h ⊢
  intro c hc
  have hca := h c hc
  have h1 : c ≠ '&' := by intro he; rw [he] at hca; exact absurd hca (by decide)
  have h2 : c ≠ '\n' := by intro he; rw [he] at hca; exact absurd hca (by decide)
  simp [h1, h2]

/-- Claim C5: for every well-formed challenge body of the shape
session_code=X&execution=Y&client_id=Z&tab_id=W followed by filler and an
https url terminated by a question mark, the extraction step of
OAuthNego.connect returns exactly the parameters X, Y, Z, W and the post url
without its trailing query part. -/
theorem extract_challenge_wellformed
    (X Y Z W mid hp rest : String)
    (hX : X.data.all Char.isAlphanum = true)
    (hY : Y.data.all Char.isAlphanum = true)
    (hZ : Z.data.all Char.isAlphanum = true)
    (hW : W.data.all Char.isAlphanum = true)
    (hmid : ':' ∉ mid.data)
    (hhp : hp.data.all (fun c => c != '?' && c != '\n') = true) :
    extract_challenge (challengeBody X Y Z W mid hp rest) =
      some ⟨X, Y, Z, W, "https://" ++ hp⟩ := by
  have hbody : (challengeBody X Y Z W mid hp rest).data =
      "session_code=".data ++ (X.data ++ ('&' :: ("execution=".data ++ (Y.data ++
        ('&' :: ("client_id=".data ++ (Z.data ++ ('&' :: ("tab_id=".data ++ (W.data ++
        ('&' :: (mid.data ++ ('h' :: 't' :: 't' :: 'p' :: 's' :: ':' :: '/' :: '/' ::
        (hp.data ++ ('?' :: rest.data))))))))))))))) := by
    simp only [challengeBody, String.data_append]
    rfl
  have e1 : reSearch "session_code=".data captureToAmp
      (challengeBody X Y Z W mid hp rest).data = some X.data := by
    rw [hbody]
    exact reSearch_match _ _ _ _ (by decide)
      (captureToAmp_append _ _ (all_alnum_amp_chars _ hX))
  have e2 : reSearch "execution=".data captureToAmp
      (challengeBody X Y Z W mid hp rest).data = some Y.data := by
    rw [hbody]
    rw [reSearch_skip_conflict _ _ _ _
      (by decide : allConflict "execution=".data "session_code=".data = true)]
    rw [reSearch_skip_alnum _ _ (by decide) (by decide) X.data _ hX]
    rw [reSearch_skip_one _ _ _ _ (by decide : conflict "execution=".data ['&'] = true)]
    exact reSearch_match _ _ _ _ (by decide)
      (captureToAmp_append _ _ (all_alnum_amp_chars _ hY))
  have e3 : reSearch "client_id=".data captureToAmp
      (challengeBody X Y Z W mid hp rest).data = some Z.data := by
    rw [hbody]
    rw [reSearch_skip_conflict _ _ _ _
      (by decide : allConflict "client_id=".data "session_code=".data = true)]
    rw [reSearch_skip_alnum _ _ (by decide) (by decide) X.data _ hX]
    rw [reSearch_skip_one _ _ _ _ (by decide : conflict "client_id=".data ['&'] = true)]
    rw [reSearch_skip_conflict _ _ _ _
      (by decide : allConflict "client_id=".data "execution=".data = true)]
    rw [reSearch_skip_alnum _ _ (by decide) (by decide) Y.data _ hY]
    rw [reSearch_skip_one _ _ _ _ (by decide : conflict "client_id=".data ['&'] = true)]
    exact reSearch_match _ _ _ _ (by decide)
      (captureToAmp_append _ _ (all_alnum_amp_chars _ hZ))
  have e4 : reSearch "tab_id=".data captureToAmp
      (challengeBody X Y Z W mid hp rest).data = some W.data := by
    rw [hbody]
    rw [reSearch_skip_conflict _ _ _ _
      (by decide : allConflict "tab_id=".data "session_code=".data = true)]
    rw [reSearch_skip_alnum _ _ (by decide) (by decide) X.data _ hX]
    rw [reSearch_skip_one _ _ _ _ (by decide : conflict "tab_id=".data ['&'] = true)]
    rw [reSearch_skip_conflict _ _ _ _
      (by decide : allConflict "tab_id=".data "execution=".data = true)]
    rw [reSearch_skip_alnum _ _ (by decide) (by decide) Y.data _ hY]
    rw [reSearch_skip_one _ _ _ _ (by decide : conflict "tab_id=".data ['&'] = true)]
    rw [reSearch_skip_conflict _ _ _ _
      (by decide : allConflict "tab_id=".data "client_id=".data = true)]
    rw [reSearch_skip_alnum _ _ (by decide) (by decide) Z.data _ hZ]
    rw [reSearch_skip_one _ _ _ _ (by decide : conflict "tab_id=".data ['&'] = true)]
    exact reSearch_match _ _ _ _ (by decide)
      (captureToAmp_append _ _ (all_alnum_amp_chars _ hW))
  have e5 : reSearch httpsKey captureToQmark
      (challengeBody X Y Z W mid hp rest).data = some hp.data := by
    rw [hbody]
    rw [reSearch_skip_conflict _ _ _ _
      (by decide : allConflict httpsKey "session_code=".data = true)]
    rw [reSearch_skip_alnum _ _ (by decide) (by decide) X.data _ hX]
    rw [reSearch_skip_one _ _ _ _ (by decide : conflict httpsKey ['&'] = true)]
    rw [reSearch_skip_conflict _ _ _ _
      (by decide : allConflict httpsKey "execution=".data = true)]
    rw [reSearch_skip_alnum _ _ (by decide) (by decide) Y.data _ hY]
    rw [reSearch_skip_one _ _ _ _ (by decide : conflict httpsKey ['&'] = true)]
    rw [reSearch_skip_conflict _ _ _ _
      (by decide : allConflict httpsKey "client_id=".data = true)]
    rw [reSearch_skip_alnum _ _ (by decide) (by decide) Z.data _ hZ]
    rw [reSearch_skip_one _ _ _ _ (by decide : conflict httpsKey ['&'] = true)]
    rw [reSearch_skip_conflict _ _ _ _
      (by decide : allConflict httpsKey "tab_id=".data = true)]
    rw [reSearch_skip_alnum _ _ (by decide) (by decide) W.data _ hW]
    rw [reSearch_skip_one _ _ _ _ (by decide : conflict httpsKey ['&'] = true)]
    rw [reSearch_skip_mid _ mid.data _ hmid]
    show reSearch httpsKey captureToQmark (httpsKey ++ (hp.data ++ ('?' :: rest.data)))
      = some hp.data
    exact reSearch_match _ _ _ _ (by decide) (captureToQmark_append _ _ hhp)
  have hmk : ∀ s : String, (⟨s.data⟩ : String) = s := fun s => rfl
  have hurl : (⟨httpsKey ++ hp.data⟩ : String) = "https://" ++ hp := by
    apply String.ext
    rw [String.data_append]
    rfl
  simp only [extract_challenge]
  rw [e1, e2, e3, e4, e5]
  simp only [Option.bind_eq_bind, Option.some_bind, Option.map_some']
  rw [hmk X, hmk Y, hmk Z, hmk W, hurl]
  rfl

theorem extract_challenge_eq_none (body : String)
    (h : reSearch "session_code=".data captureToAmp body.data = none ∨
         reSearch "execution=".data captureToAmp body.data = none ∨
         reSearch "client_id=".data captureToAmp body.data = none ∨
         reSearch "tab_id=".data captureToAmp body.data = none ∨
         reSearch httpsKey captureToQmark body.data = none) :
    extract_challenge body = none := by
  rcases h with h | h | h | h | h
  · simp [extract_challenge, h]
  · cases ha : reSearch "session_code=".data captureToAmp body.data <;>
      simp [extract_challenge, ha, h]
  · cases ha : reSearch "session_code=".data captureToAmp body.data <;>
      cases hb : reSearch "execution=".data captureToAmp body.data <;>
        simp [extract_challenge, ha, hb, h]
  · cases ha : reSearch "session_code=".data captureToAmp body.data <;>
      cases hb : reSearch "execution=".data captureToAmp body.data <;>
        cases hc : reSearch "client_id=".data captureToAmp body.data <;>
          simp [extract_challenge, ha, hb, hc, h]
  · cases ha : reSearch "session_code=".data captureToAmp body.data <;>
      cases hb : reSearch "execution=".data captureToAmp body.data <;>
        cases hc : reSearch "client_id=".data captureToAmp body.data <;>
          cases hd : reSearch "tab_id=".data captureToAmp body.data <;>
            simp [extract_challenge, ha, hb, hc, hd, h]

/-! Lemmas about unroll. -/

theorem pySplit_no_sep : ∀ (sep : Char) (l : List Char), sep ∉ l →
    pySplit sep l = [l] := by
  intro sep l
  induction l with
  | nil => intro _; rfl
  | cons c cs ih =>
    intro h
    have hc : ¬(c = sep) := fun he => h (he ▸ List.mem_cons_self c cs)
    have hcs : sep ∉ cs := fun hx => h (List.mem_cons_of_mem _ hx)
    simp [pySplit, hc, ih hcs]

theorem pySplit_sep_append : ∀ (sep : Char) (l r : List Char), sep ∉ l →
    pySplit sep (l ++ sep :: r) = l :: pySplit sep r := by
  intro sep l
  induction l with
  | nil => intro r _; simp [pySplit]
  | cons c cs ih =>
    intro r h
    have hc : ¬(c = sep) := fun he => h (he ▸ List.mem_cons_self c cs)
    have hcs : sep ∉ cs := fun hx => h (List.mem_cons_of_mem _ hx)
    rw [List.cons_append]
    simp [pySplit, hc, ih r hcs]

theorem digit_ne_of_mem {c : Char} (h : c.isDigit = true) : c ≠ ',' ∧ c ≠ '-' := by
  constructor
  · intro he; rw [he] at h; exact absurd h (by decide)
  · intro he; rw [he] at h; exact absurd h (by decide)

theorem no_comma_of_digits (ds : List Char) (h : ds.all Char.isDigit = true) :
    ',' ∉ ds := by
  intro hmem
  have := List.all_eq_true.mp h ',' hmem
  exact absurd this (by decide)

theorem no_dash_of_digits (ds : List Char) (h : ds.all Char.isDigit = true) :
    '-' ∉ ds := by
  intro hmem
  have := List.all_eq_true.mp h '-' hmem
  exact absurd this (by decide)

theorem ne_nil_of_isEmpty_false {α : Type} (l : List α) (h : l.isEmpty = false) :
    l ≠ [] := by
  cases l with
  | nil => cases h
  | cons a as => simp

theorem pyInt?_digits (ds : List Char) (hne : ds ≠ []) (hdig : ds.all Char.isDigit = true) :
    pyInt? ds = some ((digitsVal ds : Nat) : Int) := by
  cases ds with
  | nil => exact absurd rfl hne
  | cons c cs =>
    have hc : c.isDigit = true := by
      simp only [List.all_cons, Bool.and_eq_true] at hdig
      exact hdig.1
    have hcd : ¬(c = '-') := fun he => by rw [he] at hc; exact absurd hc (by decide)
    simp [pyInt?, hcd, hdig]

theorem unrollElem_render (i : IdItem) (h : i.wfb = true) :
    unrollElem i.render = some i.expand := by
  cases i with
  | single ds =>
    simp only [IdItem.wfb, Bool.and_eq_true, Bool.not_eq_true'] at h
    obtain ⟨hne, hdig⟩ := h
    have hnd : '-' ∉ ds := no_dash_of_digits ds hdig
    simp only [IdItem.render, IdItem.expand, unrollElem, if_neg hnd]
    rw [pyInt?_digits ds (ne_nil_of_isEmpty_false ds hne) hdig]
    rfl
  | range lo hi =>
    simp only [IdItem.wfb, Bool.and_eq_true, Bool.not_eq_true'] at h
    obtain ⟨⟨hlne, hldig⟩, hhne, hhdig⟩ := h
    have hld : '-' ∉ lo := no_dash_of_digits lo hldig
    have hhd : '-' ∉ hi := no_dash_of_digits hi hhdig
    have hmem : '-' ∈ lo ++ '-' :: hi :=
      List.mem_append_right lo (List.mem_cons_self '-' hi)
    simp only [IdItem.render, IdItem.expand, unrollElem, if_pos hmem]
    rw [pySplit_sep_append '-' lo hi hld, pySplit_no_sep '-' hi hhd]
    simp only [List.headD_cons, List.getLastD_cons, List.getLastD_nil]
    rw [pyInt?_digits lo (ne_nil_of_isEmpty_false lo hlne) hldig,
      pyInt?_digits hi (ne_nil_of_isEmpty_false hi hhne) hhdig]

theorem renderItems_ne_nil_chunk (i : IdItem) (h : i.wfb = true) :
    i.render ≠ [] := by
  cases i with
  | single ds =>
    simp only [IdItem.wfb, Bool.and_eq_true, Bool.not_eq_true'] at h
    simpa [IdItem.render] using ne_nil_of_isEmpty_false ds h.1
  | range lo hi => simp [IdItem.render]

theorem no_comma_render (i : IdItem) (h : i.wfb = true) : ',' ∉ i.render := by
  cases i with
  | single ds =>
    simp only [IdItem.wfb, Bool.and_eq_true, Bool.not_eq_true'] at h
    simpa [IdItem.render] using no_comma_of_digits ds h.2
  | range lo hi =>
    simp only [IdItem.wfb, Bool.and_eq_true, Bool.not_eq_true'] at h
    obtain ⟨⟨_, hldig⟩, _, hhdig⟩ := h
    intro hmem
    rw [IdItem.render] at hmem
    rcases List.mem_append.mp hmem with hx | hx
    · exact no_comma_of_digits lo hldig hx
    · rcases List.mem_cons.mp hx with hx | hx
      · cases hx
      · exact no_comma_of_digits hi hhdig hx

theorem unroll_renderItems : ∀ (items : List IdItem), items.all IdItem.wfb = true →
    unroll ⟨renderItems items⟩ = some (items.flatMap IdItem.expand) := by
  intro items
  induction items with
  | nil => intro _; rfl
  | cons i rest ih =>
    intro hwf
    simp only [List.all_cons, Bool.and_eq_true] at hwf
    obtain ⟨hi, hrest⟩ := hwf
    have hne := renderItems_ne_nil_chunk i hi
    have hnc := no_comma_render i hi
    have hElem := unrollElem_render i hi
    cases rest with
    | nil =>
      simp only [renderItems, unroll]
      rw [pySplit_no_sep ',' i.render hnc]
      simp [hne, unrollChunks, hElem]
    | cons j rest2 =>
      have ih2 := ih hrest
      simp only [unroll] at ih2 ⊢
      show unrollChunks ((pySplit ',' (i.render ++ ',' :: renderItems (j :: rest2))).filter
        (fun e => !e.isEmpty)) = _
      rw [pySplit_sep_append ',' i.render _ hnc]
      simp only [List.filter_cons]
      rw [if_pos (by simpa using hne)]
      simp only [unrollChunks, hElem, ih2, Option.some_bind, Option.bind_eq_bind]
      simp [List.flatMap_cons]

/-! Claim theorems. -/

/-- Claim C1, counterexample: the body decoding to the object with
DB_ACTION_WARNING bound to the empty string (a string msg) is returned with
the warning key still present and nothing logged, because dict.get of an
empty string is falsy; so the claim as stated fails at this input. -/
theorem empty_warning_kept_counterexample :
    maybe_json false
      (some (.obj [("DB_ACTION_WARNING", .str ""), ("DB_ACTION_OUTPUT", .num 7)]))
      "" "body" =
      ⟨.ok (.json (.obj [("DB_ACTION_WARNING", .str ""), ("DB_ACTION_OUTPUT", .num 7)])),
        none, none, none⟩ := rfl

/-- Claim C1 (amended): for every JSON body decoding to
an object binding DB_ACTION_WARNING to a non-empty string msg and
DB_ACTION_OUTPUT to X, maybe_json logs msg (prefixed by a newline) to
logger.warning, or writes it to warning.log with a notice logged when quiet
mode is set, and returns the object with the DB_ACTION_WARNING key removed,
that is the object binding only DB_ACTION_OUTPUT to X. -/
theorem warning_logged_and_stripped
    (quiet : Bool) (msg : String) (X : Json) (strippedText data : String)
    (hmsg : msg ≠ "") :
    maybe_json quiet
      (some (.obj [("DB_ACTION_WARNING", .str msg), ("DB_ACTION_OUTPUT", X)]))
      strippedText data =
      if quiet then
        ⟨.ok (.json (.obj [("DB_ACTION_OUTPUT", X)])),
          some "WARNINGS written to warning.log", some ("\n" ++ msg), none⟩
      else
        ⟨.ok (.json (.obj [("DB_ACTION_OUTPUT", X)])),
          some ("\n" ++ msg), none, none⟩ := by
  have e1 : dictGet "DB_ACTION_ERROR"
      [("DB_ACTION_WARNING", Json.str msg), ("DB_ACTION_OUTPUT", X)] = .null := rfl
  have e2 : dictGet "DB_ACTION_WARNING"
      [("DB_ACTION_WARNING", Json.str msg), ("DB_ACTION_OUTPUT", X)] = .str msg := rfl
  have e3 : dictPop "DB_ACTION_WARNING"
      [("DB_ACTION_WARNING", Json.str msg), ("DB_ACTION_OUTPUT", X)]
      = [("DB_ACTION_OUTPUT", X)] := rfl
  cases quiet <;> simp [maybe_json, e1, e2, e3, Json.truthy, pyStr, hmsg]

/-- Witness for C1 at quiet false, msg "careful", X the number 1. -/
theorem warning_logged_and_stripped_witness :
    maybe_json false
      (some (.obj [("DB_ACTION_WARNING", .str "careful"), ("DB_ACTION_OUTPUT", .num 1)]))
      "" "" =
      ⟨.ok (.json (.obj [("DB_ACTION_OUTPUT", .num 1)])),
        some ("\n" ++ "careful"), none, none⟩ :=
  (warning_logged_and_stripped false "careful" (.num 1) "" "" (by decide)).trans rfl

/-- Claim C2, counterexample: the body decoding to the object binding
DB_ACTION_ERROR to the empty string (a string msg) is returned unchanged and
nothing exits, because dict.get of an empty string is falsy; so the claim as
stated fails at this input. -/
theorem empty_error_no_exit_counterexample :
    maybe_json false (some (.obj [("DB_ACTION_ERROR", .str "")])) "" "body" =
      ⟨.ok (.json (.obj [("DB_ACTION_ERROR", .str "")])), none, none, none⟩ := rfl

/-- Claim C2 (amended): for every JSON body decoding to the object binding
DB_ACTION_ERROR to a non-empty string msg, maybe_json constructs
BadRequestError carrying msg, whose initialiser calls sys.exit, so the call
ends in a SystemExit with a non-zero status and the formatted message. -/
theorem db_action_error_exits
    (quiet : Bool) (msg : String) (strippedText data : String) (hmsg : msg ≠ "") :
    maybe_json quiet (some (.obj [("DB_ACTION_ERROR", .str msg)])) strippedText data =
      ⟨.error ⟨"BadRequestError: " ++ msg, 1⟩, none, none, none⟩ := by
  have e1 : dictGet "DB_ACTION_ERROR" [("DB_ACTION_ERROR", Json.str msg)] = .str msg := rfl
  simp [maybe_json, e1, Json.truthy, hmsg, errorArgs, pyStr]

/-- Witness for C2 at msg "boom". -/
theorem db_action_error_exits_witness :
    maybe_json true (some (.obj [("DB_ACTION_ERROR", .str "boom")])) "" "" =
      ⟨.error ⟨"BadRequestError: boom", 1⟩, none, none, none⟩ :=
  db_action_error_exits true "boom" "" "" (by decide)

/-- Claim C3, counterexample: a stripped text that starts with a run of
three dashes is not passed through; maybe_json exits with BadRequestError,
because the code only passes through a run of at least ten dashes. -/
theorem short_dash_run_counterexample :
    startswith "-" "--- error ---" = true ∧
    maybe_json false none "--- error ---" "<p>--- error ---</p>" =
      ⟨.error ⟨"BadRequestError: --- error ---", 1⟩, none, none, none⟩ := ⟨rfl, rfl⟩

/-- Claim C3 (amended): for every body that fails strict JSON decoding, the
markup is stripped to plain text; when the stripped text starts with Welcome
or with ten consecutive dashes it is written to stdout and the raw body is
returned; otherwise maybe_json exits with BadRequestError carrying the
stripped text. -/
theorem non_json_branch_classification (quiet : Bool) (strippedText data : String) :
    maybe_json quiet none strippedText data =
      if startswith "----------" strippedText then
        ⟨.ok (.raw data), none, none, some strippedText⟩
      else if startswith "Welcome" strippedText then
        ⟨.ok (.raw data), none, none, some strippedText⟩
      else
        ⟨.error ⟨"BadRequestError: " ++ strippedText, 1⟩, none, none, none⟩ := rfl

/-- Claim C4: for every get or post whose first response url contains
redirect_uri and whose challenge page parses, the client authenticates once
and resends the original request exactly once; even when the second response
url still contains redirect_uri no further authentication happens, and the
challenge-page body (which is not JSON and not a banner) makes the
classification exit with BadRequestError - a fatal error. -/
theorem redirect_retries_exactly_once
    (r1 r2 : HttpResponse) (challengePageBody postData : String) (ch : Challenge)
    (hre : strIn "redirect_uri" r1.url = true)
    (hch : extract_challenge challengePageBody = some ch) :
    routeGet r1 challengePageBody r2 = ⟨1, 2, .ok r2.text⟩ ∧
    routePost postData r1 challengePageBody r2 = ⟨1, 2, .ok r2.text⟩ ∧
    (strIn "redirect_uri" r2.url = true →
      (routeGet r1 challengePageBody r2).authAttempts = 1 ∧
      (routePost postData r1 challengePageBody r2).authAttempts = 1 ∧
      ∀ (quiet : Bool) (strippedText : String),
        startswith "----------" strippedText = false →
        startswith "Welcome" strippedText = false →
        (maybe_json quiet none strippedText r2.text).ret =
          .error ⟨"BadRequestError: " ++ strippedText, 1⟩) := by
  have hg : routeGet r1 challengePageBody r2 = ⟨1, 2, .ok r2.text⟩ := by
    simp [routeGet, hre, connect, hch]
  have hq : routePost postData r1 challengePageBody r2 = ⟨1, 2, .ok r2.text⟩ := by
    simp [routePost, hre, connect, hch]
  refine ⟨hg, hq, fun _ => ⟨?_, ?_, ?_⟩⟩
  · rw [hg]
  · rw [hq]
  · intro quiet strippedText h1 h2
    simp [maybe_json, h1, h2, errorArgs, pyStr]

/-- Witness for C4 at a concrete redirected get. -/
theorem redirect_retries_exactly_once_witness :
    routeGet ⟨"https://srv/auth?redirect_uri=cb", "w1"⟩
      "session_code=A&execution=B&client_id=C&tab_id=D&https://h/p?q"
      ⟨"https://srv/api", "w2"⟩ = ⟨1, 2, .ok "w2"⟩ :=
  (redirect_retries_exactly_once ⟨"https://srv/auth?redirect_uri=cb", "w1"⟩
    ⟨"https://srv/api", "w2"⟩
    "session_code=A&execution=B&client_id=C&tab_id=D&https://h/p?q" "d"
    ⟨"A", "B", "C", "D", "https://h/p"⟩ (by decide) (by decide)).1

/-- Witness for C5 at concrete field values. -/
theorem extract_challenge_wellformed_witness :
    extract_challenge (challengeBody "A" "B" "C" "D" "page " "host/path" "q=1") =
      some ⟨"A", "B", "C", "D", "https://" ++ "host/path"⟩ :=
  extract_challenge_wellformed "A" "B" "C" "D" "page " "host/path" "q=1"
    (by decide) (by decide) (by decide) (by decide) (by decide) (by decide)

/-- Claim C6: for every challenge body from which one of the four required
key literals or the https url is absent, extraction fails (the None.groups()
AttributeError), connect fails with that error, and a redirected get or post
surfaces it to the caller instead of swallowing it. -/
theorem malformed_challenge_surfaces
    (body : String)
    (habs : strIn "session_code=" body = false ∨ strIn "execution=" body = false ∨
            strIn "client_id=" body = false ∨ strIn "tab_id=" body = false ∨
            strIn "https://" body = false) :
    extract_challenge body = none ∧
    connect body = .error .attributeError ∧
    (∀ (r1 r2 : HttpResponse) (postData : String), strIn "redirect_uri" r1.url = true →
      (routeGet r1 body r2).result = .error .attributeError ∧
      (routePost postData r1 body r2).result = .error .attributeError) := by
  have hnone : extract_challenge body = none := by
    apply extract_challenge_eq_none
    rcases habs with h | h | h | h | h
    · exact Or.inl (reSearch_eq_none_of_not_contains _ _ _ h)
    · exact Or.inr (Or.inl (reSearch_eq_none_of_not_contains _ _ _ h))
    · exact Or.inr (Or.inr (Or.inl (reSearch_eq_none_of_not_contains _ _ _ h)))
    · exact Or.inr (Or.inr (Or.inr (Or.inl (reSearch_eq_none_of_not_contains _ _ _ h))))
    · exact Or.inr (Or.inr (Or.inr (Or.inr (reSearch_eq_none_of_not_contains _ _ _ h))))
  refine ⟨hnone, ?_, ?_⟩
  · simp [connect, hnone]
  · intro r1 r2 pd hre
    constructor
    · simp [routeGet, connect, hnone, hre]
    · simp [routePost, connect, hnone, hre]

/-- Witness for C6 at a body with no challenge fields. -/
theorem malformed_challenge_surfaces_witness :
    extract_challenge "no challenge fields here" = none :=
  (malformed_challenge_surfaces "no challenge fields here" (Or.inl (by decide))).1

/-- Claim C7, counterexample: a session file whose content makes pickle.load
raise UnpicklingError (for example the bytes of a plain text file) is not
caught by the except clause, which lists only EOFError and FileNotFoundError,
so construction aborts; the claim as stated fails for this malformed
content. -/
theorem corrupt_session_aborts_counterexample :
    @initSession Nat PickleLoad.unpicklingError 0 =
      .error PickleLoad.unpicklingError := rfl

/-- Claim C7 (amended): a missing session file (FileNotFoundError) or an
empty or truncated one (EOFError) makes construction fall back to a fresh
unauthenticated session, and a loadable session is used as is; corrupt
content raising any other exception, such as UnpicklingError, propagates
and aborts construction. -/
theorem session_fallback_eof_notfound (σ : Type) (fresh s : σ) :
    initSession PickleLoad.eofError fresh = .ok fresh ∧
    initSession PickleLoad.fileNotFound fresh = .ok fresh ∧
    initSession (PickleLoad.ok s) fresh = .ok s := ⟨rfl, rfl, rfl⟩

/-- Claim C8: every comma-separated id string made of single numbers and
dash ranges unrolls to the list of integers with every range expanded
inclusively; in particular 1,3-5 unrolls to 1, 3, 4, 5, and a digest command
with that single sample_id argument places the unrolled list under sample_id
in the generated filter JSON. -/
theorem unroll_and_digest_filter :
    (∀ (items : List IdItem), items.all IdItem.wfb = true →
      unroll ⟨renderItems items⟩ = some (items.flatMap IdItem.expand)) ∧
    unroll "1,3-5" = some [1, 3, 4, 5] ∧
    jsonify_input ⟨none, none, none, none, none, some ["1,3-5"], none, none⟩ =
      some [("location_endpoint", .null), ("experiment_nucleic_acid_type", .null),
            ("sample_id", .arr [.num 1, .num 3, .num 4, .num 5])] :=
  ⟨unroll_renderItems, rfl, rfl⟩

/-- Witness for C8 at the item list describing 7,2-4. -/
theorem unroll_and_digest_filter_witness :
    unroll "7,2-4" = some [7, 2, 3, 4] :=
  (unroll_and_digest_filter.1 [IdItem.single ['7'], IdItem.range ['2'] ['4']]
    (by decide)).trans rfl

/-- Claim C9: each fatal error class initialiser - connect.Error and its
subclass BadRequestError, tools.BadArgumentError, tools.EmptyGetError and
tools.JSONDecodeError - unconditionally ends in sys.exit with status 1
carrying the formatted message, so a raise of these terminates the process
at construction time and never yields a catchable exception object. -/
theorem fatal_error_constructors_exit :
    (∀ msg : Json, connectErrorInit "Error" msg = .error ⟨errorArgs "Error" msg, 1⟩) ∧
    (∀ msg : Json, connectErrorInit "BadRequestError" msg =
      .error ⟨errorArgs "BadRequestError" msg, 1⟩) ∧
    (∀ m : Option String, badArgumentErrorInit m = .error ⟨"BadArgumentError: " ++
      m.getD "Either use --input-json OR general option --data/--data-file from pt_cli",
      1⟩) ∧
    (∀ m : Option String, emptyGetErrorInit m = .error ⟨"EmptyGetError: " ++
      m.getD "Database returned nothing, it\x27s most likely unreachable", 1⟩) ∧
    (∀ c o : String, jsonDecodeErrorInit c o =
      .error ⟨"JSONDecodeError: Failed to decode JSON " ++ c ++ ": " ++ o ++
        "\n                 This is most likely not a JSON file or it\x27s malformed.",
        1⟩) :=
  ⟨fun _ => rfl, fun _ => rfl, fun _ => rfl, fun _ => rfl, fun _ _ => rfl⟩

/-- Claim C10: a body decoding to a non-object JSON value - null, a boolean,
a number, a string or a list - is returned by maybe_json unchanged, with no
error or warning inspection, no logging, no stdout write and no exit. -/
theorem non_object_json_passthrough (quiet : Bool) (strippedText data : String) :
    maybe_json quiet (some .null) strippedText data =
      ⟨.ok (.json .null), none, none, none⟩ ∧
    (∀ b : Bool, maybe_json quiet (some (.bool b)) strippedText data =
      ⟨.ok (.json (.bool b)), none, none, none⟩) ∧
    (∀ n : Int, maybe_json quiet (some (.num n)) strippedText data =
      ⟨.ok (.json (.num n)), none, none, none⟩) ∧
    (∀ s : String, maybe_json quiet (some (.str s)) strippedText data =
      ⟨.ok (.json (.str s)), none, none, none⟩) ∧
    (∀ xs : List Json, maybe_json quiet (some (.arr xs)) strippedText data =
      ⟨.ok (.json (.arr xs)), none, none, none⟩) :=
  ⟨rfl, fun _ => rfl, fun _ => rfl, fun _ => rfl, fun _ => rfl⟩

end PtCli
